import Mathlib

/-!
Shallow Lean embedding of the data-transformation pipeline of
`src/pages/teacher.py`: the record loader (`load_data`), the score
aggregator (`process_scores`), the student-id search filter, the
aggregate statistics and the per-student drill-down lookup.

Modelling conventions:
* A pandas DataFrame fetched from the `student_submissions` table is a
  list of rows plus explicit column-presence flags (Supabase returns one
  key per table column for every record, so column presence is a schema
  fact, carried in `FetchResult`).
* A cell that is missing/null is `Option.none`.  Python renders such a
  cell as the string "nan" (or "None"); neither starts with 'O', which is
  all the scoring code observes.
* Timestamps are wall-clock seconds since 1970-01-01 00:00:00 plus an
  optional UTC offset in seconds (`none` models a tz-naive value).
  `pytz.timezone("Asia/Seoul")` is modelled as the fixed offset UTC+9,
  valid for every instant since 1988.
* Column names are transliterated: the derived column `제출시간` is the
  `display` field, `Q{i}_점수` is `score i`, `총점` is `total`.
-/

/-- Python `str.strip()` whitespace test, for the ASCII whitespace
characters (space, tab, newline, carriage return, vertical tab, form
feed). -/
def isPySpace (c : Char) : Bool :=
  c = ' ' || c = '\t' || c = '\n' || c = '\r' || c = '\x0b' || c = '\x0c'

/-- Python `str.strip()` on a character list: drop whitespace from both
ends. -/
def pyStripL (l : List Char) : List Char :=
  ((l.dropWhile isPySpace).reverse.dropWhile isPySpace).reverse

/-- Python `str(x)` applied to an optional cell value: a missing cell
(NaN) renders as "nan".  (An explicit `None` renders "None"; both are
interchangeable for the scoring test, as neither starts with 'O'.) -/
def pyStr : Option String → String
  | none => "nan"
  | some s => s

/-- Boolean list-prefix test (Python `str.startswith` semantics over the
character list). -/
def isPrefOf : List Char → List Char → Bool
  | [], _ => true
  | _ :: _, [] => false
  | a :: as, b :: bs => a = b && isPrefOf as bs

/-- Python substring containment (`needle in haystack`) over character
lists. -/
def isSubstrOf (p : List Char) : List Char → Bool
  | [] => isPrefOf p []
  | c :: cs => isPrefOf p (c :: cs) || isSubstrOf p cs

/-- Match of one regex atom against one character, for the regex fragment
consisting of literal characters and the '.' wildcard (which matches any
character except a newline, as in Python `re`). -/
def dotMatch (p c : Char) : Bool :=
  if p = '.' then c != '\n' else p = c

/-- Anchored match of a literal-and-dot pattern at the head of a string
(character list). -/
def matchesAt : List Char → List Char → Bool
  | [], _ => true
  | _ :: _, [] => false
  | p :: ps, c :: cs => dotMatch p c && matchesAt ps cs

/-- Python `re.search` for patterns built from literal characters and the
'.' metacharacter: succeed if the pattern matches at any start position.
`pandas.Series.str.contains` defaults to `regex=True`, i.e. exactly this
search (restricted here to the fragment the development exercises). -/
def reSearchL (p : List Char) : List Char → Bool
  | [] => matchesAt p []
  | s :: cs => matchesAt p (s :: cs) || reSearchL p cs

/-- Regex search on strings, the semantics of `df["student_id"].str.contains(pat)`
for patterns in the literal-and-dot fragment. -/
def reSearch (pat s : String) : Bool :=
  reSearchL pat.data s.data

/-- Characters that are metacharacters of Python regular expressions.  A
pattern avoiding all of them (and hence also '.') is matched purely
literally by `re.search`. -/
def isRegexMeta (c : Char) : Bool :=
  c = '.' || c = '^' || c = '$' || c = '*' || c = '+' || c = '?' ||
  c = '\\' || c = '[' || c = ']' || c = '\x7b' || c = '\x7d' ||
  c = '(' || c = ')' || c = '|'

/-- Lexicographic strict order on character lists — the order under
which pandas sorts and maximizes the zero-padded `%Y-%m-%d %H:%M:%S`
display strings. -/
def strLtL : List Char → List Char → Bool
  | [], [] => false
  | [], _ :: _ => true
  | _ :: _, [] => false
  | a :: as, b :: bs => a < b || (a = b && strLtL as bs)

/-- Decimal digit character. -/
def digitChar (n : Nat) : Char := Char.ofNat (48 + n)

/-- Two-digit zero-padded decimal rendering (strftime %m %d %H %M %S). -/
def pad2 (n : Nat) : String := ⟨[digitChar (n / 10 % 10), digitChar (n % 10)]⟩

/-- Four-digit zero-padded decimal rendering (strftime %Y for years below
10000). -/
def pad4 (n : Nat) : String :=
  ⟨[digitChar (n / 1000 % 10), digitChar (n / 100 % 10),
    digitChar (n / 10 % 10), digitChar (n % 10)]⟩

/-- Proleptic-Gregorian civil date (year, month, day) from a count of
days since 1970-01-01 (Howard Hinnant's `civil_from_days` algorithm, the
one underlying datetime libraries). -/
def civilFromDays (z0 : Int) : Int × Nat × Nat :=
  let z : Int := z0 + 719468
  let era : Int := z.ediv 146097
  let doe : Nat := (z - era * 146097).toNat
  let yoe : Nat := (doe - doe / 1460 + doe / 36524 - doe / 146096) / 365
  let doy : Nat := doe - (365 * yoe + yoe / 4 - yoe / 100)
  let mp : Nat := (5 * doy + 2) / 153
  let d : Nat := doy - (153 * mp + 2) / 5 + 1
  let m : Nat := if mp < 10 then mp + 3 else mp - 9
  (era * 400 + yoe + (if m ≤ 2 then 1 else 0), m, d)

/-- Render an instant, given as seconds since the epoch of the target
wall clock, in the `%Y-%m-%d %H:%M:%S` strftime format. -/
def civilFormat (secs : Int) : String :=
  let days := secs.ediv 86400
  let sod := (secs.emod 86400).toNat
  let c := civilFromDays days
  pad4 c.1.toNat ++ "-" ++ pad2 c.2.1 ++ "-" ++ pad2 c.2.2 ++ " " ++
    pad2 (sod / 3600) ++ ":" ++ pad2 (sod % 3600 / 60) ++ ":" ++ pad2 (sod % 60)

/-- A timestamp value as stored in `created_at`: wall-clock seconds since
1970-01-01 00:00:00 on the stamp's own clock, and an optional UTC offset
in seconds (`none` = tz-naive, no offset present in the source value). -/
structure Timestamp where
  naive : Int
  offset : Option Int
deriving DecidableEq

/-- The `created_at -> 제출시간` conversion of `load_data`: convert the
tz-aware instant to Asia/Seoul (UTC+9, 32400 s) and format it.  Only
applied on the success path, where every timestamp carries an offset. -/
def formatKST (ts : Timestamp) : String :=
  civilFormat (ts.naive - ts.offset.getD 0 + 32400)

/-- One raw record of the `student_submissions` fetch: a mapping from the
table's columns to optional values. -/
structure RawRecord where
  student_id : String
  created_at : Option Timestamp
  answer : Fin 3 → Option String
  feedback : Fin 3 → Option String

/-- Result of `supabase.table("student_submissions").select("*")`: the
schema's column-presence flags plus the records.  (Supabase returns every
column key on every record, so presence of the `created_at` and
`feedback_i` columns is a schema fact.) -/
structure FetchResult where
  hasCreatedCol : Bool
  hasFeedbackCol : Fin 3 → Bool
  records : List RawRecord

/-- A row of the normalized DataFrame produced by `load_data`. -/
structure LoadedRow where
  student_id : String
  created_at : Option Timestamp
  answer : Fin 3 → Option String
  feedback : Fin 3 → Option String
  display : Option String

/-- The normalized DataFrame produced by `load_data` (rows plus presence
flags for the optional columns). -/
structure LoadedTable where
  hasFeedbackCol : Fin 3 → Bool
  hasDisplayCol : Bool
  rows : List LoadedRow

/-- The empty DataFrame `pd.DataFrame()` (no rows, no columns). -/
def emptyLoaded : LoadedTable := ⟨fun _ => false, false, []⟩

/-- The offsets of the non-null `created_at` values of a record list, in
order (the information `pd.to_datetime` uses to pick the column's
dtype/timezone; null cells become NaT and carry no offset). -/
def presentOffsets (records : List RawRecord) : List (Option Int) :=
  records.filterMap (fun r => r.created_at.map (fun ts => ts.offset))

/-- Whether `pd.to_datetime(col).dt.tz_convert(kst)` succeeds on the
`created_at` column.  It does exactly when the column ends up tz-aware
with a single timezone: at least one non-null value exists, the first
one carries an offset, and every other non-null value carries the same
offset.  An all-null column is a tz-naive NaT column, a column with any
offset-free value is tz-naive (or mixed), and distinct offsets make the
parse/convert raise — in all those cases `tz_convert`/`to_datetime`
raises and the load degrades to the empty DataFrame. -/
def createdColumnConvertible (records : List RawRecord) : Bool :=
  match presentOffsets records with
  | [] => false
  | o :: os => o.isSome && os.all (fun o2 => o2 == o)

/-- Embedding of `load_data` (src/pages/teacher.py lines 49-68).  A fetch
error is caught and yields the empty DataFrame; an empty record list
yields the empty DataFrame; otherwise, when the `created_at` column is
present and convertible (tz-aware with one uniform offset) it is
converted to a `제출시간` display string, null cells becoming NaT and
formatting to NaN (absent display); a non-convertible column makes
`to_datetime`/`tz_convert` raise, which the enclosing `except Exception`
turns into the empty DataFrame. -/
def load_data (fetch : Except String FetchResult) : LoadedTable :=
  match fetch with
  | .error _ => emptyLoaded
  | .ok res =>
    if res.records.isEmpty then emptyLoaded
    else if res.hasCreatedCol then
      if createdColumnConvertible res.records then
        { hasFeedbackCol := res.hasFeedbackCol, hasDisplayCol := true,
          rows := res.records.map (fun r =>
            ⟨r.student_id, r.created_at, r.answer, r.feedback,
             r.created_at.map formatKST⟩) }
      else
        emptyLoaded
    else
      { hasFeedbackCol := res.hasFeedbackCol, hasDisplayCol := false,
        rows := res.records.map (fun r =>
          ⟨r.student_id, r.created_at, r.answer, r.feedback, none⟩) }

/-- The scoring lambda of `process_scores` (line 83):
`1 if str(x).strip().startswith("O") else 0`. -/
def scoreOf (x : Option String) : Nat :=
  if isPrefOf ['O'] (pyStripL (pyStr x).data) then 1 else 0

/-- A row of the scored DataFrame: the loaded row's columns unchanged,
plus the derived `Q{i}_점수` and `총점` columns (absent when the column
was not created). -/
structure ScoredRow where
  base : LoadedRow
  score : Fin 3 → Option Nat
  total : Option Nat

/-- The scored DataFrame produced by `process_scores`. -/
structure ScoredTable where
  hasFeedbackCol : Fin 3 → Bool
  hasDisplayCol : Bool
  hasScoreCol : Fin 3 → Bool
  hasTotalCol : Bool
  rows : List ScoredRow

/-- Row-wise work of `process_scores`: a `Q{i}_점수` cell for each
`feedback_i` column present, and a `총점` cell summing the score columns
that were created (an absent score column contributes nothing); `총점` is
only created when at least one score column exists. -/
def scoreRow (hs : Fin 3 → Bool) (r : LoadedRow) : ScoredRow :=
  let sc : Fin 3 → Option Nat :=
    fun i => if hs i then some (scoreOf (r.feedback i)) else none
  ⟨r, sc,
   if hs 0 || hs 1 || hs 2 then
     some ((sc 0).getD 0 + (sc 1).getD 0 + (sc 2).getD 0)
   else none⟩

/-- Embedding of `process_scores` (lines 70-90).  An empty DataFrame is
returned unchanged; otherwise the derived columns are added row by row,
the pre-existing columns untouched. -/
def process_scores (t : LoadedTable) : ScoredTable :=
  if t.rows.isEmpty then
    ⟨t.hasFeedbackCol, t.hasDisplayCol, fun _ => false, false, []⟩
  else
    ⟨t.hasFeedbackCol, t.hasDisplayCol, t.hasFeedbackCol,
     t.hasFeedbackCol 0 || t.hasFeedbackCol 1 || t.hasFeedbackCol 2,
     t.rows.map (scoreRow t.hasFeedbackCol)⟩

/-- Embedding of the sidebar filter (lines 112-114):
`df = df[df["student_id"].str.contains(search_id)]`, skipped when the
search box is empty. -/
def search_filter (pat : String) (t : ScoredTable) : ScoredTable :=
  if pat = "" then t
  else { t with rows := t.rows.filter (fun r => reSearch pat r.base.student_id) }

/-- Embedding of the drill-down lookup (line 183):
`df[df["student_id"] == selected_student].iloc[-1]`, i.e. the last row in
table order among the student's rows (`none` models the `IndexError` on
an empty selection). -/
def student_data (t : ScoredTable) (sid : String) : Option ScoredRow :=
  (t.rows.filter (fun r => r.base.student_id == sid)).getLast?

/-- Embedding of `df["총점"].mean()` (line 123): `none` models the
`KeyError` when the `총점` column is absent or the NaN mean of an empty
column. -/
def avg_score (t : ScoredTable) : Option ℚ :=
  if t.hasTotalCol && !t.rows.isEmpty then
    some ((t.rows.map (fun r => ((r.total.getD 0 : ℚ)))).sum / (t.rows.length : ℚ))
  else none

/-- Embedding of `len(df[df["총점"] == 3])` (line 124). -/
def perfect_score_count (t : ScoredTable) : Nat :=
  (t.rows.filter (fun r => r.total == some 3)).length

/-- Embedding of the per-question accuracy chart input (line 143):
`df[["Q1_점수","Q2_점수","Q3_점수"]].mean() * 100`; `none` models the
`KeyError` when any of the three score columns is absent. -/
def q_accuracy (t : ScoredTable) : Option (ℚ × ℚ × ℚ) :=
  if t.hasScoreCol 0 && t.hasScoreCol 1 && t.hasScoreCol 2 then
    some (100 * ((t.rows.map (fun r => (((r.score 0).getD 0 : ℚ)))).sum / (t.rows.length : ℚ)),
          100 * ((t.rows.map (fun r => (((r.score 1).getD 0 : ℚ)))).sum / (t.rows.length : ℚ)),
          100 * ((t.rows.map (fun r => (((r.score 2).getD 0 : ℚ)))).sum / (t.rows.length : ℚ)))
  else none

/-- The aggregate metrics of the dashboard header (lines 122-124). -/
structure Stats where
  total_students : Nat
  avg : Option ℚ
  perfect : Nat

/-- The main page flow (lines 103-124): load, score, stop with a "no
data" warning when the table is empty (`none`), otherwise filter and
compute the aggregate metrics. -/
def dashboard (fetch : Except String FetchResult) (searchId : String) : Option Stats :=
  let df := process_scores (load_data fetch)
  if df.rows.isEmpty then none
  else
    let dff := search_filter searchId df
    some ⟨dff.rows.length, avg_score dff, perfect_score_count dff⟩

/-! ## Helper lemmas -/

/-- The scoring lambda only ever produces 0 or 1. -/
lemma scoreOf_le_one (x : Option String) : scoreOf x ≤ 1 := by
  unfold scoreOf; split <;> simp

/-- A one-character pattern is a prefix exactly when it is the head. -/
lemma isPrefOf_singleton (a : Char) (l : List Char) :
    isPrefOf [a] l = true ↔ l.head? = some a := by
  cases l with
  | nil => simp [isPrefOf]
  | cons b bs => simp [isPrefOf, eq_comm]

/-- Leading-space invariance of Python `strip`. -/
lemma pyStripL_space_cons (l : List Char) : pyStripL (' ' :: l) = pyStripL l := by
  simp [pyStripL, List.dropWhile, isPySpace]

/-- Every row of `process_scores` output is `scoreRow` of an input row. -/
lemma mem_process_scores_rows {t : LoadedTable} {r : ScoredRow}
    (hr : r ∈ (process_scores t).rows) :
    ∃ r₀ ∈ t.rows, r = scoreRow t.hasFeedbackCol r₀ := by
  unfold process_scores at hr
  split at hr
  · simp at hr
  · obtain ⟨r₀, h₀, rfl⟩ := List.mem_map.mp hr
    exact ⟨r₀, h₀, rfl⟩

/-- Each score cell of a built row is at most 1 (0 when absent). -/
lemma scoreRow_score_le_one (hs : Fin 3 → Bool) (r : LoadedRow) (i : Fin 3) :
    ((scoreRow hs r).score i).getD 0 ≤ 1 := by
  unfold scoreRow
  simp only
  split
  · exact scoreOf_le_one _
  · simp

/-- The total cell of a built row is at most 3. -/
lemma scoreRow_total_le_three (hs : Fin 3 → Bool) (r : LoadedRow) :
    (scoreRow hs r).total.getD 0 ≤ 3 := by
  have h0 := scoreRow_score_le_one hs r 0
  have h1 := scoreRow_score_le_one hs r 1
  have h2 := scoreRow_score_le_one hs r 2
  unfold scoreRow at *
  simp only at *
  split
  · simpa using Nat.add_le_add (Nat.add_le_add h0 h1) h2
  · simp

/-! ## C1 -/

/-- Modelled from the spec: the claim's scoring rule for C1 — trim,
case-fold (upper-case), and test for a leading "O".  Stated only for
comparison with the code's `scoreOf`. -/
def score_spec (x : Option String) : Nat :=
  if isPrefOf ['O'] ((pyStripL (pyStr x).data).map Char.toUpper) then 1 else 0

/-- C1 counterexample: the claim demands score 1 for a feedback string
beginning with a lowercase "o" after trimming (the spec's trim-and-fold
rule gives 1), but the code's test `str(x).strip().startswith("O")` is
case-sensitive and scores it 0. -/
theorem c1_counterexample :
    score_spec (some "o: correct") = 1 ∧ scoreOf (some "o: correct") = 0 := by
  decide

/-- C1 (amended): the derived question score is 1 iff the trimmed
feedback string starts with the capital letter "O" (the test is
case-sensitive); every score is 0 or 1; an absent value and the empty
string score 0; surrounding whitespace is ignored. -/
theorem c1_score_rule :
    (∀ s : String, scoreOf (some s) = 1 ↔ (pyStripL s.data).head? = some 'O') ∧
    (∀ x : Option String, scoreOf x = 0 ∨ scoreOf x = 1) ∧
    scoreOf none = 0 ∧ scoreOf (some "") = 0 ∧
    (∀ s : String, scoreOf (some ⟨' ' :: s.data⟩) = scoreOf (some s)) := by
  refine ⟨fun s => ?_, fun x => ?_, by decide, by decide, fun s => ?_⟩
  · rw [← isPrefOf_singleton 'O']
    unfold scoreOf
    split <;> simp_all [pyStr]
  · unfold scoreOf; split <;> simp
  · simp [scoreOf, pyStr, pyStripL_space_cons]

/-! ## C4 -/

/-- C4: for every row of the scored table, the `총점` value (when the
column exists) is exactly the sum of the three derived question scores
(an absent score column contributing 0, the spec's own convention for an
absent column), and it never exceeds 3 — so it lies in {0,1,2,3}. -/
theorem c4_total_is_sum (t : LoadedTable) (r : ScoredRow)
    (hr : r ∈ (process_scores t).rows) (n : Nat) (hn : r.total = some n) :
    n = (r.score 0).getD 0 + (r.score 1).getD 0 + (r.score 2).getD 0 ∧ n ≤ 3 := by
  obtain ⟨r₀, -, rfl⟩ := mem_process_scores_rows hr
  have hle := scoreRow_total_le_three t.hasFeedbackCol r₀
  rw [hn] at hle
  refine ⟨?_, by simpa using hle⟩
  unfold scoreRow at hn ⊢
  simp only at hn ⊢
  split at hn
  · simpa using hn.symm
  · exact absurd hn (by simp)

/-- Sample input for the C4 witness: all three feedback columns present,
one record scoring 1, 0, 0. -/
def c4_table : LoadedTable :=
  load_data (.ok ⟨false, fun _ => true,
    [⟨"s1", none, fun _ => none,
      fun i => if i = 0 then some "O: good" else some "X: bad"⟩]⟩)

/-- C4 witness: the theorem applied to a concrete one-row table whose
`총점` is 1. -/
theorem c4_witness :
    1 = (((process_scores c4_table).rows.get ⟨0, by decide⟩).score 0).getD 0 +
        (((process_scores c4_table).rows.get ⟨0, by decide⟩).score 1).getD 0 +
        (((process_scores c4_table).rows.get ⟨0, by decide⟩).score 2).getD 0 ∧
    1 ≤ 3 :=
  c4_total_is_sum c4_table _ (List.get_mem _ _ _) 1 (by decide)

/-! ## C10 -/

/-- C10: `process_scores` only adds derived columns — mapping each output
row to its pre-existing columns gives back exactly the input rows, and
the input's column-presence flags are preserved. -/
theorem c10_frame (t : LoadedTable) :
    (process_scores t).rows.map (fun r => r.base) = t.rows ∧
    (process_scores t).hasFeedbackCol = t.hasFeedbackCol ∧
    (process_scores t).hasDisplayCol = t.hasDisplayCol := by
  unfold process_scores
  split
  · next h => simp_all [List.isEmpty_iff]
  · refine ⟨?_, rfl, rfl⟩
    rw [List.map_map]
    exact List.map_id _

/-! ## C2 -/

/-- Failing input for C2: one student with two submissions, fetched with
the later submission (2024-03-02 09:00:00 KST, perfect score) first and
the earlier one (2024-03-01 10:00:00 KST, score 0) last. -/
def c2_fetch : FetchResult :=
  ⟨true, fun _ => true,
   [⟨"s1", some ⟨1709337600, some 0⟩, fun _ => none, fun _ => some "O: good"⟩,
    ⟨"s1", some ⟨1709254800, some 0⟩, fun _ => none, fun _ => some "X: bad"⟩]⟩

/-- The scored table the drill-down operates on for the C2 failing input
(no sidebar search active). -/
def c2_table : ScoredTable :=
  search_filter "" (process_scores (load_data (.ok c2_fetch)))

/-- C2 evaluation at the failing input: `student_data` takes the last row
in table order (`iloc[-1]`) without sorting, so it returns the row whose
`display_time` is 2024-03-01 10:00:00 — strictly below the student's
maximal `display_time` 2024-03-02 09:00:00 — and shows total 0 instead of
the latest submission's total 3. -/
theorem c2_evaluation :
    (c2_table.rows.map fun r => r.base.display) =
      [some "2024-03-02 09:00:00", some "2024-03-01 10:00:00"] ∧
    ((student_data c2_table "s1").map fun r => r.base.display) =
      some (some "2024-03-01 10:00:00") ∧
    ((student_data c2_table "s1").map fun r => r.total) = some (some 0) ∧
    (c2_table.rows.map fun r => r.total) = [some 3, some 0] ∧
    strLtL "2024-03-01 10:00:00".data "2024-03-02 09:00:00".data = true := by
  refine ⟨by decide, by decide, by decide, by decide, by decide⟩

/-! ## C3 -/

/-- A record whose `created_at` carries no timezone offset (tz-naive). -/
def c3_naiveRecord : RawRecord :=
  ⟨"s1", some ⟨1709254800, none⟩, fun _ => none, fun _ => none⟩

/-- C3 counterexample: a load containing an offset-free timestamp does
not succeed — `tz_convert` raises on the tz-naive value and the whole
load degrades to the empty DataFrame, producing no formatted display at
all (the claim says the load succeeds, interpreting the value as UTC). -/
theorem c3_counterexample :
    load_data (.ok ⟨true, fun _ => true, [c3_naiveRecord]⟩) = emptyLoaded ∧
    (load_data (.ok ⟨true, fun _ => true, [c3_naiveRecord]⟩)).rows = [] :=
  ⟨rfl, rfl⟩

/-- A `created_at` column with at least one non-null value, all of whose
non-null values carry one common offset, is convertible. -/
lemma createdColumnConvertible_of_uniform {records : List RawRecord} {o : Int}
    (hex : ∃ r ∈ records, r.created_at.isSome)
    (hall : ∀ r ∈ records, ∀ ts, r.created_at = some ts → ts.offset = some o) :
    createdColumnConvertible records = true := by
  have hmem : ∀ x ∈ presentOffsets records, x = some o := by
    intro x hx
    obtain ⟨r, hr, hmap⟩ := List.mem_filterMap.mp hx
    cases hc : r.created_at with
    | none => rw [hc] at hmap; simp at hmap
    | some ts =>
      rw [hc] at hmap
      have hx' : ts.offset = x := by simpa using hmap
      rw [← hx']
      exact hall r hr ts hc
  have hne : presentOffsets records ≠ [] := by
    obtain ⟨r, hr, hsome⟩ := hex
    cases hc : r.created_at with
    | none => rw [hc] at hsome; simp at hsome
    | some ts =>
      have hin : ts.offset ∈ presentOffsets records :=
        List.mem_filterMap.mpr ⟨r, hr, by rw [hc]; rfl⟩
      intro he
      rw [he] at hin
      simp at hin
  unfold createdColumnConvertible
  cases hp : presentOffsets records with
  | nil => exact absurd hp hne
  | cons p ps =>
    have hpo : p = some o := hmem p (by rw [hp]; exact List.mem_cons_self _ _)
    subst hpo
    simp only [Option.isSome_some, Bool.true_and]
    rw [List.all_eq_true]
    intro x hx
    have hxo : x = some o := hmem x (by rw [hp]; exact List.mem_cons_of_mem _ hx)
    subst hxo
    simp

/-- C3 (amended): when the `created_at` column is convertible — it holds
at least one non-null value and every non-null value carries one common
timezone offset `o` — the load succeeds and each row's display field is
the instant shifted to Asia/Seoul (epoch seconds of the instant plus
32400) rendered in the `%Y-%m-%d %H:%M:%S` format, null cells staying
absent; an offset-free value, an all-null column or mixed offsets
instead fail the whole load to the empty table. -/
theorem c3_aware_timestamps (res : FetchResult) (o : Int)
    (hcol : res.hasCreatedCol = true)
    (hex : ∃ r ∈ res.records, r.created_at.isSome)
    (hall : ∀ r ∈ res.records, ∀ ts, r.created_at = some ts → ts.offset = some o) :
    (load_data (.ok res)).rows.map (fun row => row.display) =
      res.records.map (fun r => r.created_at.map (fun ts =>
        civilFormat (ts.naive - ts.offset.getD 0 + 32400))) := by
  have hconv : createdColumnConvertible res.records = true :=
    createdColumnConvertible_of_uniform hex hall
  have h1 : res.records.isEmpty = false := by
    obtain ⟨r, hr, -⟩ := hex
    cases hrec : res.records with
    | nil => rw [hrec] at hr; simp at hr
    | cons a as => rfl
  simp only [load_data, h1, hcol, hconv, Bool.false_eq_true, if_false, if_true,
    List.map_map]
  rfl

/-- Concrete input for the C3 witness: a record stamped
2024-03-01 01:00:00 UTC (offset +00:00) alongside a record with a null
`created_at` (NaT). -/
def c3w_fetch : FetchResult :=
  ⟨true, fun _ => false,
   [⟨"s1", some ⟨1709254800, some 0⟩, fun _ => none, fun _ => none⟩,
    ⟨"s2", none, fun _ => none, fun _ => none⟩]⟩

/-- C3 witness: the amended theorem at the concrete input, whose display
fields evaluate to the Asia/Seoul rendering "2024-03-01 10:00:00" and to
an absent display for the NaT cell. -/
theorem c3_witness :
    (load_data (.ok c3w_fetch)).rows.map (fun row => row.display) =
      c3w_fetch.records.map (fun r => r.created_at.map (fun ts =>
        civilFormat (ts.naive - ts.offset.getD 0 + 32400))) ∧
    (load_data (.ok c3w_fetch)).rows.map (fun row => row.display) =
      [some "2024-03-01 10:00:00", none] := by
  refine ⟨c3_aware_timestamps c3w_fetch 0 rfl
    ⟨⟨"s1", some ⟨1709254800, some 0⟩, fun _ => none, fun _ => none⟩,
     List.Mem.head _, rfl⟩ ?_, by decide⟩
  intro r hr ts hts
  simp only [c3w_fetch, List.mem_cons, List.mem_singleton] at hr
  rcases hr with h | h | h
  · subst h
    injection hts with h'
    subst h'
    rfl
  · subst h
    exact absurd hts (by simp)
  · simp at h

/-! ## C8 -/

/-- Input for C8: the `created_at` column exists and converts (one UTC
value), and the second record's value is null. -/
def c8_fetch : FetchResult :=
  ⟨true, fun _ => true,
   [⟨"s1", some ⟨1709254800, some 0⟩, fun _ => none, fun _ => none⟩,
    ⟨"s2", none, fun _ => none, fun _ => none⟩]⟩

/-- Input for C8: the `created_at` column exists but every value is null,
so the NaT column is tz-naive and `tz_convert` raises. -/
def c8_fetch_allnull : FetchResult :=
  ⟨true, fun _ => true, [⟨"s1", none, fun _ => none, fun _ => none⟩]⟩

/-- Input for C8: the `created_at` column is absent from the schema. -/
def c8_fetch_nocol : FetchResult :=
  ⟨false, fun _ => true, [⟨"s1", none, fun _ => none, fun _ => none⟩]⟩

/-- C8 counterexample: no input with an absent `created_at` ever gets the
"time unknown" sentinel the claim requires.  When the load succeeds (a
convertible column), the affected row's display field is simply missing
(`none`); when every value of the column is null, the tz-naive NaT
column makes the whole load degrade to the empty DataFrame (the record
is dropped, not labelled); when the column is absent from the schema, no
display column is created at all. -/
theorem c8_counterexample :
    ((load_data (.ok c8_fetch)).rows.map fun r => r.display) =
      [some "2024-03-01 10:00:00", none] ∧
    (∀ r ∈ (load_data (.ok c8_fetch)).rows, r.display ≠ some "time unknown") ∧
    load_data (.ok c8_fetch_allnull) = emptyLoaded ∧
    (load_data (.ok c8_fetch_nocol)).hasDisplayCol = false := by
  refine ⟨by decide, by decide, rfl, by decide⟩

/-- C8 (amended): no "time unknown" sentinel exists anywhere in the
pipeline.  On a successful load, a record whose `created_at` is absent
keeps an absent display field (NaT formatted to NaN); when the
`created_at` column exists but all its values are null, the tz-naive NaT
column fails the whole load to the empty table; when the column is
absent from the schema, no display column is created. -/
theorem c8_missing_created_at :
    (∀ res : FetchResult, ∀ row ∈ (load_data (.ok res)).rows,
        row.created_at = none → row.display = none) ∧
    (∀ res : FetchResult, res.hasCreatedCol = false →
        (load_data (.ok res)).hasDisplayCol = false) ∧
    (∀ res : FetchResult, res.hasCreatedCol = true → res.records ≠ [] →
        (∀ r ∈ res.records, r.created_at = none) →
        load_data (.ok res) = emptyLoaded) := by
  refine ⟨?_, ?_, ?_⟩
  · intro res row hrow hnone
    by_cases he : res.records.isEmpty
    · simp [load_data, he, emptyLoaded] at hrow
    · by_cases hc : res.hasCreatedCol
      · by_cases hn : createdColumnConvertible res.records
        · simp only [load_data, he, hc, hn, Bool.false_eq_true, if_false,
            if_true, List.mem_map] at hrow
          obtain ⟨r, -, rfl⟩ := hrow
          show Option.map formatKST r.created_at = none
          rw [show r.created_at = none from hnone]
          rfl
        · simp [load_data, he, hc, hn, emptyLoaded] at hrow
      · simp only [load_data, he, hc, Bool.false_eq_true, if_false,
          List.mem_map] at hrow
        obtain ⟨r, -, rfl⟩ := hrow
        rfl
  · intro res hc
    by_cases he : res.records.isEmpty
    · simp [load_data, he, emptyLoaded]
    · simp [load_data, he, hc]
  · intro res hc hne hnull
    have hpo : presentOffsets res.records = [] := by
      unfold presentOffsets
      rw [List.filterMap_eq_nil_iff]
      intro r hr
      rw [hnull r hr]
      rfl
    have hconv : createdColumnConvertible res.records = false := by
      unfold createdColumnConvertible
      rw [hpo]
    have he : res.records.isEmpty = false := by
      cases hrec : res.records with
      | nil => exact absurd hrec hne
      | cons a as => rfl
    simp [load_data, he, hc, hconv]

/-- C8 witness: the amended theorem at the three concrete inputs. -/
theorem c8_witness :
    ((load_data (.ok c8_fetch)).rows.get ⟨1, by decide⟩).display = none ∧
    (load_data (.ok c8_fetch_nocol)).hasDisplayCol = false ∧
    load_data (.ok c8_fetch_allnull) = emptyLoaded :=
  ⟨c8_missing_created_at.1 c8_fetch _ (List.get_mem _ _ _) (by decide),
   c8_missing_created_at.2.1 c8_fetch_nocol rfl,
   c8_missing_created_at.2.2 c8_fetch_allnull rfl (List.cons_ne_nil _ _)
     (by
       intro r hr
       simp only [c8_fetch_allnull, List.mem_singleton] at hr
       subst hr
       rfl)⟩

/-! ## C5 -/

/-- C5 (amended): for a row whose `feedback_i` cell is null while the
column exists, the question score degrades to 0 without error; but when
the `feedback_i` column is absent from the table entirely, no `Qi` score
column is created at all (the score cell is absent, not 0 — it merely
contributes nothing to the total). -/
theorem c5_missing_feedback (t : LoadedTable) (r : ScoredRow)
    (hr : r ∈ (process_scores t).rows) (i : Fin 3) :
    (t.hasFeedbackCol i = true → r.base.feedback i = none → r.score i = some 0) ∧
    (t.hasFeedbackCol i = false → r.score i = none) := by
  obtain ⟨r₀, -, rfl⟩ := mem_process_scores_rows hr
  constructor
  · intro hcol hval
    have hv : r₀.feedback i = none := hval
    show (if t.hasFeedbackCol i = true then some (scoreOf (r₀.feedback i))
          else none) = some 0
    rw [hcol, hv]
    rfl
  · intro hcol
    show (if t.hasFeedbackCol i = true then some (scoreOf (r₀.feedback i))
          else none) = none
    rw [hcol]
    rfl

/-- Input for the C5 counterexample: the `feedback_1` column is absent
from the schema; the other two feedback columns hold correct markers. -/
def c5_fetch : FetchResult :=
  ⟨false, fun i => !(i == 0),
   [⟨"s1", none, fun _ => none, fun i => if i = 0 then none else some "O: ok"⟩]⟩

/-- The scored table for the C5 counterexample. -/
def c5_table : ScoredTable := process_scores (load_data (.ok c5_fetch))

/-- C5 counterexample: with the `feedback_1` column absent from the
table, the affected row's `Q1` score is not 0 — the score column simply
does not exist (`none`), and the per-question statistics view fails on
the missing column (`q_accuracy` is `none`, modelling the `KeyError`)
instead of seeing a 0 score. -/
theorem c5_counterexample :
    c5_table.hasScoreCol 0 = false ∧
    (c5_table.rows.map fun r => r.score 0) = [none] ∧
    ((none : Option Nat) ≠ some 0) ∧
    q_accuracy c5_table = none ∧
    (c5_table.rows.map fun r => r.total) = [some 2] := by
  refine ⟨by decide, by decide, by decide, by decide, by decide⟩

/-- Input for the C5 witness: all columns present, the `feedback_2` cell
null in the single record. -/
def c5w_table : LoadedTable :=
  load_data (.ok ⟨false, fun _ => true,
    [⟨"s1", none, fun _ => none, fun i => if i = 1 then none else some "O: y"⟩]⟩)

/-- C5 witness: the amended theorem at the two concrete inputs — a null
cell scores 0, an absent column yields an absent score cell. -/
theorem c5_witness :
    ((process_scores c5w_table).rows.get ⟨0, by decide⟩).score 1 = some 0 ∧
    (c5_table.rows.get ⟨0, by decide⟩).score 0 = none :=
  ⟨(c5_missing_feedback c5w_table _ (List.get_mem _ _ _) 1).1 rfl (by decide),
   (c5_missing_feedback (load_data (.ok c5_fetch)) _ (List.get_mem _ _ _) 0).2 rfl⟩

/-! ## C6 -/

/-- A literal-only pattern that matches anchored at the head is a literal
prefix. -/
lemma matchesAt_literal {p : List Char} (hp : ∀ c ∈ p, isRegexMeta c = false) :
    ∀ s, matchesAt p s = true → isPrefOf p s = true := by
  induction p with
  | nil => intro s _; rfl
  | cons a as ih =>
    intro s h
    cases s with
    | nil => exact absurd h (by simp [matchesAt])
    | cons b bs =>
      simp only [matchesAt, Bool.and_eq_true] at h
      obtain ⟨h1, h2⟩ := h
      have ha : isRegexMeta a = false := hp a (List.mem_cons_self _ _)
      have hadot : a ≠ '.' := by
        intro e; subst e; simp [isRegexMeta] at ha
      unfold dotMatch at h1
      rw [if_neg hadot] at h1
      simp only [isPrefOf, Bool.and_eq_true]
      exact ⟨h1, ih (fun c hc => hp c (List.mem_cons_of_mem _ hc)) bs h2⟩

/-- A literal-only pattern found by `re.search` occurs as a literal
substring. -/
lemma reSearchL_literal {p : List Char} (hp : ∀ c ∈ p, isRegexMeta c = false) :
    ∀ s, reSearchL p s = true → isSubstrOf p s = true := by
  intro s
  induction s with
  | nil =>
    intro h
    unfold reSearchL at h
    unfold isSubstrOf
    exact matchesAt_literal hp [] h
  | cons c cs ih =>
    intro h
    unfold reSearchL at h
    rw [Bool.or_eq_true] at h
    unfold isSubstrOf
    rw [Bool.or_eq_true]
    cases h with
    | inl h => exact Or.inl (matchesAt_literal hp _ h)
    | inr h => exact Or.inr (ih h)

/-- C6 (amended): the student-id filter is a pure narrowing — the
filtered rows are a sublist of the original rows and the loaded table is
untouched — and for every filter string free of regex metacharacters each
remaining row's `student_id` contains the filter string as a
case-sensitive substring.  (For a general filter string the test is
`re.search` of the string as a regex, not substring containment.) -/
theorem c6_literal_narrowing (pat : String) (t : ScoredTable)
    (hlit : ∀ c ∈ pat.data, isRegexMeta c = false) :
    List.Sublist (search_filter pat t).rows t.rows ∧
    ∀ r ∈ (search_filter pat t).rows,
      isSubstrOf pat.data r.base.student_id.data = true := by
  unfold search_filter
  by_cases hp : pat = ""
  · rw [if_pos hp]
    subst hp
    refine ⟨List.Sublist.refl _, fun r _ => ?_⟩
    show isSubstrOf [] r.base.student_id.data = true
    cases r.base.student_id.data <;> rfl
  · rw [if_neg hp]
    refine ⟨List.filter_sublist _, fun r hr => ?_⟩
    simp only [List.mem_filter] at hr
    exact reSearchL_literal hlit _ hr.2

/-- Input for the C6 counterexample: a single row with `student_id`
"abc". -/
def c6_fetch : FetchResult :=
  ⟨false, fun _ => true, [⟨"abc", none, fun _ => none, fun _ => some "O: ok"⟩]⟩

/-- The scored table for the C6 counterexample. -/
def c6_table : ScoredTable := process_scores (load_data (.ok c6_fetch))

/-- C6 counterexample: the filter string "." (a regex metacharacter)
keeps the row with `student_id` "abc" even though "abc" does not contain
"." as a substring — `str.contains` treats the filter as a regular
expression, not as a literal substring. -/
theorem c6_counterexample :
    ((search_filter "." c6_table).rows.map fun r => r.base.student_id) = ["abc"] ∧
    isSubstrOf ".".data "abc".data = false := by
  refine ⟨by decide, by decide⟩

/-- A hand-built one-row scored table for the C6 witness. -/
def c6w_row : ScoredRow :=
  ⟨⟨"abc", none, fun _ => none, fun _ => none, none⟩, fun _ => none, none⟩

/-- The one-row table holding `c6w_row`. -/
def c6w_table : ScoredTable :=
  ⟨fun _ => true, false, fun _ => false, false, [c6w_row]⟩

/-- C6 witness: the amended theorem at the literal pattern "b" and the
one-row table with `student_id` "abc". -/
theorem c6_witness :
    List.Sublist (search_filter "b" c6w_table).rows c6w_table.rows ∧
    isSubstrOf "b".data c6w_row.base.student_id.data = true :=
  ⟨(c6_literal_narrowing "b" c6w_table (by decide)).1,
   (c6_literal_narrowing "b" c6w_table (by decide)).2 c6w_row (List.Mem.head _)⟩

/-! ## C7 -/

/-- C7: a fetch error or an empty fetched collection yields the empty
DataFrame (not an error), and the main flow then stops in the "no data"
state — no aggregate statistic (count, mean, perfect count) is ever
computed over zero rows. -/
theorem c7_empty_or_error :
    (∀ e sid : String,
        load_data (.error e) = emptyLoaded ∧ dashboard (.error e) sid = none) ∧
    (∀ res : FetchResult, res.records = [] → ∀ sid : String,
        load_data (.ok res) = emptyLoaded ∧ dashboard (.ok res) sid = none) := by
  constructor
  · intro e sid
    exact ⟨rfl, rfl⟩
  · intro res hres sid
    have he : res.records.isEmpty = true := by rw [hres]; rfl
    have h1 : load_data (.ok res) = emptyLoaded := by
      simp [load_data, he]
    refine ⟨h1, ?_⟩
    simp only [dashboard]
    rw [h1]
    rfl

/-- C7 witness: the theorem at a concrete empty fetch and a concrete
fetch error. -/
theorem c7_witness :
    load_data (.ok ⟨false, fun _ => false, []⟩) = emptyLoaded ∧
    dashboard (.ok ⟨false, fun _ => false, []⟩) "" = none ∧
    dashboard (.error "connection refused") "" = none :=
  ⟨(c7_empty_or_error.2 ⟨false, fun _ => false, []⟩ rfl "").1,
   (c7_empty_or_error.2 ⟨false, fun _ => false, []⟩ rfl "").2,
   (c7_empty_or_error.1 "connection refused" "").2⟩

/-! ## C9 -/

/-- Rows survive the search filter only from the original table. -/
lemma mem_search_filter_rows {pat : String} {t : ScoredTable} {r : ScoredRow}
    (hr : r ∈ (search_filter pat t).rows) : r ∈ t.rows := by
  unfold search_filter at hr
  split at hr
  · exact hr
  · exact (List.mem_filter.mp hr).1

/-- C9: whenever the aggregate view's mean of `총점` is defined (the
table shown is non-empty and carries the total column), it lies in the
interval [0, 3], and the count of perfect-score rows never exceeds the
row count. -/
theorem c9_aggregate_bounds (t : LoadedTable) (pat : String) (q : ℚ)
    (hq : avg_score (search_filter pat (process_scores t)) = some q) :
    0 ≤ q ∧ q ≤ 3 ∧
    perfect_score_count (search_filter pat (process_scores t)) ≤
      (search_filter pat (process_scores t)).rows.length := by
  have hperf : perfect_score_count (search_filter pat (process_scores t)) ≤
      (search_filter pat (process_scores t)).rows.length :=
    List.length_filter_le _ _
  unfold avg_score at hq
  split at hq
  case isFalse => exact absurd hq (by simp)
  case isTrue hcond =>
    have hne : (search_filter pat (process_scores t)).rows ≠ [] := by
      intro e
      rw [e] at hcond
      simp at hcond
    have hlen : (0 : ℚ) < ((search_filter pat (process_scores t)).rows.length : ℚ) := by
      exact_mod_cast List.length_pos.mpr hne
    have hbound : ∀ x ∈ (search_filter pat (process_scores t)).rows.map
        (fun r => ((r.total.getD 0 : ℚ))), x ≤ 3 := by
      intro x hx
      obtain ⟨r, hr, rfl⟩ := List.mem_map.mp hx
      obtain ⟨r₀, -, rfl⟩ := mem_process_scores_rows (mem_search_filter_rows hr)
      exact_mod_cast scoreRow_total_le_three t.hasFeedbackCol r₀
    have hnn : ∀ x ∈ (search_filter pat (process_scores t)).rows.map
        (fun r => ((r.total.getD 0 : ℚ))), 0 ≤ x := by
      intro x hx
      obtain ⟨r, -, rfl⟩ := List.mem_map.mp hx
      exact_mod_cast Nat.zero_le _
    have hsum := List.sum_le_card_nsmul _ 3 hbound
    rw [List.length_map] at hsum
    have hsumnn := List.sum_nonneg hnn
    obtain rfl : _ = q := Option.some.inj hq
    refine ⟨div_nonneg hsumnn (le_of_lt hlen), ?_, hperf⟩
    rw [div_le_iff₀ hlen]
    calc _ ≤ (search_filter pat (process_scores t)).rows.length • (3 : ℚ) := hsum
    _ = 3 * ((search_filter pat (process_scores t)).rows.length : ℚ) := by
          rw [nsmul_eq_mul, mul_comm]

/-- Input for the C9 witness: one row with three correct markers (mean 3,
one perfect score). -/
def c9w_table : LoadedTable :=
  load_data (.ok ⟨false, fun _ => true,
    [⟨"s1", none, fun _ => none, fun _ => some "O: all good"⟩]⟩)

/-- C9 witness: the theorem at a concrete one-row table whose mean is 3. -/
theorem c9_witness :
    0 ≤ (3 : ℚ) ∧ (3 : ℚ) ≤ 3 ∧
    perfect_score_count (search_filter "" (process_scores c9w_table)) ≤
      (search_filter "" (process_scores c9w_table)).rows.length := by
  have h3 : (search_filter "" (process_scores c9w_table)).rows.map
      (fun r => r.total.getD 0) = [3] := by decide
  have h4 : (search_filter "" (process_scores c9w_table)).rows.length = 1 := by
    decide
  have hcond : ((search_filter "" (process_scores c9w_table)).hasTotalCol &&
      !(search_filter "" (process_scores c9w_table)).rows.isEmpty) = true := by
    decide
  have hq : avg_score (search_filter "" (process_scores c9w_table)) = some 3 := by
    unfold avg_score
    rw [if_pos hcond]
    have hmapcast : (search_filter "" (process_scores c9w_table)).rows.map
        (fun r => ((r.total.getD 0 : ℚ))) =
        ((search_filter "" (process_scores c9w_table)).rows.map
          (fun r => r.total.getD 0)).map (fun n : Nat => ((n : ℚ))) := by
      rw [List.map_map]
      rfl
    rw [hmapcast, h3, h4]
    norm_num
  exact c9_aggregate_bounds c9w_table "" 3 hq
